import Mathlib

/-!
Verification of the RBAC authentication/authorization core of the
aerotrack repository (`src/rbac.py`) against its specification.

The Python module is shallowly embedded:

* Python `str` values are Lean `String`s (the password-hashing internals
  work on `List Char`, the character sequence of the string).
* `datetime` values are modelled as `Nat` timestamps; `isoformat`
  serialisation is order-preserving, so comparisons translate directly.
* The SHA-256 digest and the UTF-8 byte encoding are kept abstract: every
  definition that needs them is parametrised by
  `encode : List Char → List Nat` (UTF-8 encoding of a string) and
  `sha256 : List Nat → List Nat` (one digest round).  All the verified
  properties hold for an arbitrary digest function.
* The mutable manager state (`st.session_state`: users dict, sessions
  dict, audit-log list, current-session reference) is an explicit
  `AuthState` record, threaded through the operations; the Python dicts
  keyed by id are association lists of records carrying their own key.
* Randomly generated tokens (`secrets.token_*`) are passed in as
  explicit arguments (`sessionId`, `logId`).
-/

namespace AeroRBAC

-- ═══════════════════════════════════════════════════════════════════
-- Data model (rbac.py, `User` / `Session` / `AuditLogEntry` dataclasses)
-- ═══════════════════════════════════════════════════════════════════

/-- `User` dataclass from rbac.py. -/
structure User where
  user_id : String
  username : String
  email : String
  password_hash : String
  role : String
  first_name : String
  last_name : String
  department : String := ""
  is_active : Bool := true
  is_locked : Bool := false
  failed_login_attempts : Nat := 0
  last_login : Option Nat := none
  created_at : Nat := 0
  updated_at : Nat := 0
  created_by : String := "system"
  password_changed_at : Option Nat := none
  must_change_password : Bool := false
  custom_permissions : List String := []
  denied_permissions : List String := []
deriving Repr, DecidableEq

/-- `Session` dataclass from rbac.py. -/
structure Session where
  session_id : String
  user_id : String
  username : String
  role : String
  created_at : Nat
  expires_at : Nat
  ip_address : String := ""
  user_agent : String := ""
  is_active : Bool := true
  last_activity : Nat := 0
deriving Repr, DecidableEq

/-- A value in the free-form `details` dict of an audit entry
(the Python code stores strings and integers there). -/
inductive DetailVal where
  | str (s : String)
  | num (n : Nat)
deriving Repr, DecidableEq

/-- `AuditLogEntry` dataclass from rbac.py. -/
structure AuditLogEntry where
  log_id : String
  timestamp : Nat
  user_id : String
  username : String
  action : String
  resource_type : String
  resource_id : String
  details : List (String × DetailVal)
  ip_address : String := ""
  status : String := "success"
deriving Repr, DecidableEq

/-- The mutable storage of `AuthenticationManager`
(`st.session_state.rbac_users` / `rbac_sessions` / `rbac_audit_log` /
`current_session`). -/
structure AuthState where
  users : List User
  sessions : List Session
  audit_log : List AuditLogEntry
  current_session : Option String
deriving Repr, DecidableEq

/-- `AuthenticationManager.MAX_FAILED_ATTEMPTS`. -/
def MAX_FAILED_ATTEMPTS : Nat := 5

/-- `AuthenticationManager.SESSION_DURATION_HOURS`. -/
def SESSION_DURATION_HOURS : Nat := 8

-- ═══════════════════════════════════════════════════════════════════
-- PasswordManager (hash_password / verify_password)
-- ═══════════════════════════════════════════════════════════════════

/-- One hexadecimal digit, as produced by `hexdigest()`. -/
def hexDigit : Nat → Char
  | 0 => '0' | 1 => '1' | 2 => '2' | 3 => '3' | 4 => '4'
  | 5 => '5' | 6 => '6' | 7 => '7' | 8 => '8' | 9 => '9'
  | 10 => 'a' | 11 => 'b' | 12 => 'c' | 13 => 'd' | 14 => 'e'
  | _ => 'f'

/-- Two hex digits of one byte. -/
def byteToHex (b : Nat) : List Char :=
  [hexDigit (b % 256 / 16), hexDigit (b % 16)]

/-- `hexdigest()` of a byte sequence. -/
def toHexChars (bs : List Nat) : List Char :=
  (bs.map byteToHex).flatten

/-- Python `str.split` on the single separator character, as a function on
the character sequence: `"".split` gives `[""]`, separators at the ends
give empty fields. -/
def splitDollar : List Char → List (List Char)
  | [] => [[]]
  | c :: cs =>
    if c = '$' then [] :: splitDollar cs
    else
      match splitDollar cs with
      | [] => [[c]]
      | t :: ts => (c :: t) :: ts

/-- The `for _ in range(n): hash_result = sha256(hash_result).digest()`
loop of `hash_password`. -/
def pbkdfRounds (sha256 : List Nat → List Nat) : Nat → List Nat → List Nat
  | 0, h => h
  | n + 1, h => pbkdfRounds sha256 n (sha256 h)

/-- `PasswordManager.hash_password(password, salt)` with the salt supplied
by the caller (the randomly generated default is the caller's concern).
Returns the pair `(stored, salt)` where `stored = f"{salt}${final_hash}"`. -/
def hash_password (encode : List Char → List Nat) (sha256 : List Nat → List Nat)
    (password salt : String) : String × String :=
  let salted := encode (salt.data ++ password.data ++ salt.data)
  let hashResult := pbkdfRounds sha256 10000 salted
  let finalHash := toHexChars (sha256 hashResult)
  (String.mk (salt.data ++ '$' :: finalHash), salt)

/-- `secrets.compare_digest`: a constant-time comparison, whose functional
behaviour is string equality. -/
def compare_digest (a b : String) : Bool := a == b

/-- `PasswordManager.verify_password(password, stored_hash)`.  The Python
`salt, _ = stored_hash.split('$')` unpacking succeeds only when the split
yields exactly two parts; otherwise the `ValueError` is caught and the
function returns `False`. -/
def verify_password (encode : List Char → List Nat) (sha256 : List Nat → List Nat)
    (password stored_hash : String) : Bool :=
  match splitDollar stored_hash.data with
  | [salt, _] =>
      compare_digest (hash_password encode sha256 password (String.mk salt)).1 stored_hash
  | _ => false

-- ═══════════════════════════════════════════════════════════════════
-- Static role→permission table (ROLE_PERMISSIONS)
-- ═══════════════════════════════════════════════════════════════════

/-- All values of the `Permission` enum (the set granted to
`super_admin`). -/
def allPermissions : List String :=
  ["view_transactions", "view_all_transactions", "edit_transactions",
   "delete_transactions", "export_transactions",
   "view_refunds", "request_refund", "approve_refund", "reject_refund",
   "view_escalations", "create_escalation", "resolve_escalation",
   "use_ai_assistant", "view_ai_history",
   "view_basic_analytics", "view_advanced_analytics", "export_reports",
   "view_users", "create_users", "edit_users", "delete_users",
   "assign_roles",
   "view_audit_log", "manage_settings", "view_system_health"]

/-- `ROLE_PERMISSIONS.get(role, set())`: the static table, with the empty
set for unknown roles. -/
def rolePermissions (role : String) : List String :=
  if role = "super_admin" then allPermissions
  else if role = "admin" then
    ["view_transactions", "view_all_transactions", "edit_transactions",
     "delete_transactions", "export_transactions",
     "view_refunds", "request_refund", "approve_refund", "reject_refund",
     "view_escalations", "create_escalation", "resolve_escalation",
     "use_ai_assistant", "view_ai_history",
     "view_basic_analytics", "view_advanced_analytics", "export_reports",
     "view_users", "create_users", "edit_users", "delete_users",
     "assign_roles",
     "view_audit_log", "manage_settings", "view_system_health"]
  else if role = "manager" then
    ["view_transactions", "view_all_transactions", "edit_transactions",
     "export_transactions",
     "view_refunds", "request_refund", "approve_refund", "reject_refund",
     "view_escalations", "create_escalation", "resolve_escalation",
     "use_ai_assistant", "view_ai_history",
     "view_basic_analytics", "view_advanced_analytics", "export_reports",
     "view_users", "view_audit_log"]
  else if role = "senior_agent" then
    ["view_transactions", "view_all_transactions", "edit_transactions",
     "export_transactions", "view_refunds", "request_refund",
     "view_escalations", "create_escalation", "resolve_escalation",
     "use_ai_assistant", "view_ai_history",
     "view_basic_analytics", "view_advanced_analytics"]
  else if role = "agent" then
    ["view_transactions", "edit_transactions", "view_refunds",
     "request_refund", "view_escalations", "create_escalation",
     "use_ai_assistant", "view_basic_analytics"]
  else if role = "viewer" then
    ["view_transactions", "view_refunds", "view_escalations",
     "view_basic_analytics"]
  else []

-- ═══════════════════════════════════════════════════════════════════
-- User/session directory helpers
-- ═══════════════════════════════════════════════════════════════════

/-- `AuthenticationManager.get_user`: dict lookup by user id. -/
def getUser (s : AuthState) (user_id : String) : Option User :=
  s.users.find? (fun u => u.user_id == user_id)

/-- Python `str.lower()`: per-character lowercasing. -/
def strLower (s : String) : String := String.mk (s.data.map Char.toLower)

/-- `AuthenticationManager.get_user_by_username`: first user whose
lowercased username matches the lowercased argument. -/
def getUserByUsername (s : AuthState) (username : String) : Option User :=
  s.users.find? (fun u => strLower u.username == strLower username)

/-- In-place mutation of the user object stored under `user_id`
(Python mutates the object held in the `rbac_users` dict). -/
def updateUserById (users : List User) (user_id : String) (u' : User) : List User :=
  users.map (fun x => if x.user_id == user_id then u' else x)

/-- In-place mutation of the session object stored under `session_id`. -/
def updateSessionById (sessions : List Session) (session_id : String) (se' : Session) : List Session :=
  sessions.map (fun x => if x.session_id == session_id then se' else x)

/-- `st.session_state.rbac_sessions[session_id] = session`: dict insert
(replace in place when the key exists, append otherwise). -/
def putSession (sessions : List Session) (se : Session) : List Session :=
  if sessions.any (fun x => x.session_id == se.session_id) then
    updateSessionById sessions se.session_id se
  else sessions ++ [se]

-- ═══════════════════════════════════════════════════════════════════
-- Audit log (_log_action / get_audit_log)
-- ═══════════════════════════════════════════════════════════════════

/-- `AuthenticationManager._log_action`: append an entry, then keep only
the last 1000 entries. -/
def logAction (s : AuthState) (logId : String) (now : Nat)
    (user_id username action resource_type resource_id : String)
    (details : List (String × DetailVal))
    (ip_address status : String) : AuthState :=
  let entry : AuditLogEntry :=
    { log_id := logId, timestamp := now, user_id := user_id,
      username := username, action := action,
      resource_type := resource_type, resource_id := resource_id,
      details := details, ip_address := ip_address, status := status }
  let log := s.audit_log ++ [entry]
  { s with audit_log := if log.length > 1000 then log.drop (log.length - 1000) else log }

-- ═══════════════════════════════════════════════════════════════════
-- Authentication (login / sessions)
-- ═══════════════════════════════════════════════════════════════════

/-- `AuthenticationManager.login(username, password, ip_address,
user_agent)`.  `now` stands for `datetime.now()`, `sessionId` for the
generated `secrets.token_urlsafe(32)` and `logId` for the audit entry's
generated id.  Returns the `(success, message)` pair together with the
updated state. -/
def login (encode : List Char → List Nat) (sha256 : List Nat → List Nat)
    (s : AuthState) (username password ip_address user_agent : String)
    (now : Nat) (sessionId logId : String) : (Bool × String) × AuthState :=
  match getUserByUsername s username with
  | none =>
      let s1 := logAction s logId now "UNKNOWN" username "LOGIN_ATTEMPT"
        "session" "" [("reason", .str "user_not_found")] "" "failure"
      ((false, "Invalid username or password"), s1)
  | some user =>
      if user.is_active = false then
        ((false, "Account is deactivated. Contact administrator."), s)
      else if user.is_locked then
        ((false, "Account is locked due to too many failed attempts. Contact administrator."), s)
      else if verify_password encode sha256 password user.password_hash = false then
        let attempts := user.failed_login_attempts + 1
        if attempts ≥ MAX_FAILED_ATTEMPTS then
          let user' := { user with failed_login_attempts := attempts, is_locked := true }
          let s1 := { s with users := updateUserById s.users user.user_id user' }
          let s2 := logAction s1 logId now user.user_id user.username "ACCOUNT_LOCKED"
            "user" user.user_id [("attempts", .num attempts)] "" "failure"
          ((false, "Account locked due to too many failed attempts"), s2)
        else
          let user' := { user with failed_login_attempts := attempts }
          let s1 := { s with users := updateUserById s.users user.user_id user' }
          let s2 := logAction s1 logId now user.user_id user.username "LOGIN_ATTEMPT"
            "session" ""
            [("reason", .str "invalid_password"), ("attempts", .num attempts)] "" "failure"
          ((false, "Invalid username or password"), s2)
      else
        let user' := { user with failed_login_attempts := 0, last_login := some now }
        let expires_at := now + SESSION_DURATION_HOURS * 3600
        let session : Session :=
          { session_id := sessionId, user_id := user.user_id,
            username := user.username, role := user.role,
            created_at := now, expires_at := expires_at,
            ip_address := ip_address, user_agent := user_agent,
            is_active := true, last_activity := now }
        let s1 := { s with users := updateUserById s.users user.user_id user',
                           sessions := putSession s.sessions session,
                           current_session := some sessionId }
        let s2 := logAction s1 logId now user.user_id user.username "LOGIN"
          "session" sessionId [("ip", .str ip_address)] "" "success"
        if user.must_change_password then ((true, "LOGIN_SUCCESS_CHANGE_PASSWORD"), s2)
        else ((true, "Login successful"), s2)

/-- `AuthenticationManager.get_current_session`.  Lazily expires the
session: when `expires_at < now` the stored session object is marked
inactive, the current-session reference is cleared and `None` is
returned; otherwise `last_activity` is refreshed. -/
def get_current_session (s : AuthState) (now : Nat) : Option Session × AuthState :=
  match s.current_session with
  | none => (none, s)
  | some sid =>
      match s.sessions.find? (fun x => x.session_id == sid) with
      | none => (none, s)
      | some se =>
          if se.is_active = false then (none, s)
          else if se.expires_at < now then
            let se' := { se with is_active := false }
            (none, { s with sessions := updateSessionById s.sessions sid se',
                            current_session := none })
          else
            let se' := { se with last_activity := now }
            (some se', { s with sessions := updateSessionById s.sessions sid se' })

/-- `AuthenticationManager.get_current_user`. -/
def get_current_user (s : AuthState) (now : Nat) : Option User × AuthState :=
  match get_current_session s now with
  | (none, s1) => (none, s1)
  | (some se, s1) => (getUser s1 se.user_id, s1)

/-- `AuthenticationManager.is_authenticated`. -/
def is_authenticated (s : AuthState) (now : Nat) : Bool × AuthState :=
  let r := get_current_session s now
  (r.1.isSome, r.2)

-- ═══════════════════════════════════════════════════════════════════
-- delete_user (deactivation)
-- ═══════════════════════════════════════════════════════════════════

/-- `AuthenticationManager.delete_user(user_id, deleted_by)`: soft delete.
The self-deletion guard compares `user_id` against the *current session's*
user (`self.get_current_user()`), not against `deleted_by`. -/
def delete_user (s : AuthState) (user_id deleted_by : String)
    (now : Nat) (logId : String) : (Bool × String) × AuthState :=
  match getUser s user_id with
  | none => ((false, "User not found"), s)
  | some user =>
      let r := get_current_user s now
      let s1 := r.2
      if (match r.1 with
          | some current => current.user_id == user_id
          | none => false) then
        ((false, "Cannot delete your own account"), s1)
      else
        let user' := { user with is_active := false, updated_at := now }
        let s2 := { s1 with users := updateUserById s1.users user_id user' }
        let s3 := { s2 with sessions := (s2.sessions.map
          (fun se => if se.user_id == user_id then { se with is_active := false } else se)) }
        let actorName :=
          match getUser s3 deleted_by with
          | some du => du.username
          | none => deleted_by
        let s4 := logAction s3 logId now deleted_by actorName "DELETE_USER"
          "user" user_id [("username", .str user.username)] "" "success"
        ((true, "User deactivated successfully"), s4)

-- ═══════════════════════════════════════════════════════════════════
-- Authorization evaluator
-- ═══════════════════════════════════════════════════════════════════

/-- `AuthenticationManager.get_user_permissions`: role permissions,
plus custom permissions, minus denied permissions (set semantics:
membership in the resulting list is what matters). -/
def get_user_permissions (u : User) : List String :=
  (rolePermissions u.role ++ u.custom_permissions).filter
    (fun p => !(u.denied_permissions.contains p))

/-- `AuthenticationManager.has_permission(permission, user)`: resolves the
user from the current session when not given; `False` for no user or an
inactive user. -/
def has_permission (s : AuthState) (now : Nat) (permission : String)
    (user : Option User) : Bool × AuthState :=
  let r : Option User × AuthState :=
    match user with
    | none => get_current_user s now
    | some u => (some u, s)
  match r.1 with
  | none => (false, r.2)
  | some u =>
      if u.is_active = false then (false, r.2)
      else ((get_user_permissions u).contains permission, r.2)

/-- `AuthenticationManager.has_any_permission(permissions, user)`:
`bool(user_permissions.intersection(permissions))`.  Unlike
`has_permission`, there is no `is_active` check in the source. -/
def has_any_permission (s : AuthState) (now : Nat) (permissions : List String)
    (user : Option User) : Bool × AuthState :=
  let r : Option User × AuthState :=
    match user with
    | none => get_current_user s now
    | some u => (some u, s)
  match r.1 with
  | none => (false, r.2)
  | some u =>
      (permissions.any (fun p => (get_user_permissions u).contains p), r.2)

/-- `AuthenticationManager.has_all_permissions(permissions, user)`:
`all(p in user_permissions for p in permissions)`.  No `is_active`
check in the source. -/
def has_all_permissions (s : AuthState) (now : Nat) (permissions : List String)
    (user : Option User) : Bool × AuthState :=
  let r : Option User × AuthState :=
    match user with
    | none => get_current_user s now
    | some u => (some u, s)
  match r.1 with
  | none => (false, r.2)
  | some u =>
      (permissions.all (fun p => (get_user_permissions u).contains p), r.2)

-- ═══════════════════════════════════════════════════════════════════
-- User serialisation (User.to_dict)
-- ═══════════════════════════════════════════════════════════════════

/-- A value in the dictionary produced by `dataclasses.asdict(user)`. -/
inductive FieldVal where
  | str (s : String)
  | nat (n : Nat)
  | optNat (n : Option Nat)
  | bool (b : Bool)
  | strList (l : List String)
deriving Repr, DecidableEq

/-- `dataclasses.asdict(user)`: every attribute of the dataclass, in
declaration order, keyed by the field name. -/
def userAsDict (u : User) : List (String × FieldVal) :=
  [("user_id", .str u.user_id),
   ("username", .str u.username),
   ("email", .str u.email),
   ("password_hash", .str u.password_hash),
   ("role", .str u.role),
   ("first_name", .str u.first_name),
   ("last_name", .str u.last_name),
   ("department", .str u.department),
   ("is_active", .bool u.is_active),
   ("is_locked", .bool u.is_locked),
   ("failed_login_attempts", .nat u.failed_login_attempts),
   ("last_login", .optNat u.last_login),
   ("created_at", .nat u.created_at),
   ("updated_at", .nat u.updated_at),
   ("created_by", .str u.created_by),
   ("password_changed_at", .optNat u.password_changed_at),
   ("must_change_password", .bool u.must_change_password),
   ("custom_permissions", .strList u.custom_permissions),
   ("denied_permissions", .strList u.denied_permissions)]

/-- `User.to_dict`: `asdict(self)` followed by `del data['password_hash']`
(removal of that key from the dictionary). -/
def userToDict (u : User) : List (String × FieldVal) :=
  (userAsDict u).filter (fun kv => !(kv.1 == "password_hash"))

-- ═══════════════════════════════════════════════════════════════════
-- get_audit_log
-- ═══════════════════════════════════════════════════════════════════

/-- One optional filter of `get_audit_log`: Python's `if user_id:` guard
applies the filter only when the argument is a non-empty string. -/
def applyFilter (f : Option String) (key : AuditLogEntry → String)
    (entries : List AuditLogEntry) : List AuditLogEntry :=
  match f with
  | none => entries
  | some v => if v = "" then entries else entries.filter (fun e => key e == v)

/-- Stable insertion into a list sorted by timestamp descending. -/
def insertDesc (e : AuditLogEntry) : List AuditLogEntry → List AuditLogEntry
  | [] => [e]
  | x :: xs => if e.timestamp < x.timestamp then x :: insertDesc e xs else e :: x :: xs

/-- `entries.sort(key=lambda x: x.timestamp, reverse=True)`: a stable sort
by timestamp descending (Python's sort is stable, and a stable sort is
uniquely determined by the comparator, so insertion sort computes the
same list). -/
def sortDesc : List AuditLogEntry → List AuditLogEntry
  | [] => []
  | x :: xs => insertDesc x (sortDesc xs)

/-- `AuthenticationManager.get_audit_log(user_id, action, resource_type,
limit)`: filter, sort by timestamp descending, truncate to `limit`.  The
Python default for `limit` is 100. -/
def get_audit_log (s : AuthState) (user_id action resource_type : Option String)
    (limit : Nat) : List AuditLogEntry :=
  let e1 := applyFilter user_id (fun e => e.user_id) s.audit_log
  let e2 := applyFilter action (fun e => e.action) e1
  let e3 := applyFilter resource_type (fun e => e.resource_type) e2
  (sortDesc e3).take limit

-- ═══════════════════════════════════════════════════════════════════
-- Helper lemmas
-- ═══════════════════════════════════════════════════════════════════

theorem pbkdfRounds_triv (f : List Nat → List Nat) (hf : ∀ x, f x = x) :
    ∀ n h, pbkdfRounds f n h = h := by
  intro n
  induction n with
  | zero => intro h; rfl
  | succ k ih => intro h; rw [pbkdfRounds, hf]; exact ih h

theorem hexDigit_ne_dollar (n : Nat) : hexDigit n ≠ '$' := by
  unfold hexDigit; split <;> decide

theorem dollar_not_mem_byteToHex (b : Nat) : '$' ∉ byteToHex b := by
  simp only [byteToHex, List.mem_cons, List.mem_singleton, List.not_mem_nil]
  rintro (h | h | h)
  · exact hexDigit_ne_dollar _ h.symm
  · exact hexDigit_ne_dollar _ h.symm
  · exact h

theorem dollar_not_mem_toHexChars (bs : List Nat) : '$' ∉ toHexChars bs := by
  intro h
  simp only [toHexChars, List.mem_flatten, List.mem_map] at h
  obtain ⟨l, ⟨b, _, rfl⟩, hmem⟩ := h
  exact dollar_not_mem_byteToHex b hmem

theorem splitDollar_of_not_mem {a : List Char} (h : '$' ∉ a) : splitDollar a = [a] := by
  induction a with
  | nil => rfl
  | cons c cs ih =>
    have hc : ¬ c = '$' := fun hc => h (hc ▸ List.mem_cons_self c cs)
    have ih' := ih (fun hm => h (List.mem_cons_of_mem _ hm))
    rw [splitDollar, if_neg hc, ih']

theorem splitDollar_append {a : List Char} (b : List Char) (h : '$' ∉ a) :
    splitDollar (a ++ '$' :: b) = a :: splitDollar b := by
  induction a with
  | nil => rw [List.nil_append, splitDollar, if_pos rfl]
  | cons c cs ih =>
    have hc : ¬ c = '$' := fun hc => h (hc ▸ List.mem_cons_self c cs)
    have ih' := ih (fun hm => h (List.mem_cons_of_mem _ hm))
    rw [List.cons_append, splitDollar, if_neg hc, ih']

theorem find?_map_of_pred {α : Type} (p : α → Bool) (g : α → α) (l : List α)
    (hg : ∀ x ∈ l, p (g x) = p x) :
    (l.map g).find? p = (l.find? p).map g := by
  induction l with
  | nil => rfl
  | cons x xs ih =>
    have hx := hg x (List.mem_cons_self x xs)
    cases hpx : p x with
    | true =>
      rw [List.map_cons, List.find?_cons_of_pos _ (by rw [hx, hpx]),
        List.find?_cons_of_pos _ hpx, Option.map_some']
    | false =>
      rw [List.map_cons, List.find?_cons_of_neg _ (by simp [hx, hpx]),
        List.find?_cons_of_neg _ (by simp [hpx]),
        ih (fun y hy => hg y (List.mem_cons_of_mem _ hy))]

-- ═══════════════════════════════════════════════════════════════════
-- C6: effective permission set
-- ═══════════════════════════════════════════════════════════════════

/-- C6: for every user, the effective permission set
(`get_user_permissions`) contains exactly the permissions of the static
role table for the user's role plus the user's custom permissions, minus
the user's denied permissions; in particular a denied permission is
absent even when the role or a custom grant includes it. -/
theorem effective_permissions_spec (u : User) (p : String) :
    p ∈ get_user_permissions u ↔
      ((p ∈ rolePermissions u.role ∨ p ∈ u.custom_permissions) ∧
        p ∉ u.denied_permissions) := by
  simp [get_user_permissions, List.mem_filter, List.mem_append]
  tauto

-- ═══════════════════════════════════════════════════════════════════
-- C9: to_dict strips the password hash
-- ═══════════════════════════════════════════════════════════════════

/-- C9: the serialised form `User.to_dict` carries every attribute of the
user record except `password_hash`, and the emitted dictionary never
contains the `password_hash` key (it is present in the raw `asdict`
serialisation and removed by `to_dict`). -/
theorem to_dict_excludes_password_hash (u : User) :
    (userToDict u).map Prod.fst =
      ["user_id", "username", "email", "role", "first_name", "last_name",
       "department", "is_active", "is_locked", "failed_login_attempts",
       "last_login", "created_at", "updated_at", "created_by",
       "password_changed_at", "must_change_password",
       "custom_permissions", "denied_permissions"] ∧
    (userAsDict u).map Prod.fst =
      ["user_id", "username", "email", "password_hash", "role",
       "first_name", "last_name", "department", "is_active", "is_locked",
       "failed_login_attempts", "last_login", "created_at", "updated_at",
       "created_by", "password_changed_at", "must_change_password",
       "custom_permissions", "denied_permissions"] ∧
    "password_hash" ∉ (userToDict u).map Prod.fst := by
  refine ⟨rfl, rfl, ?_⟩
  simp [userToDict, userAsDict]

-- ═══════════════════════════════════════════════════════════════════
-- C8: password hashing round trip
-- ═══════════════════════════════════════════════════════════════════

/-- Concrete instantiation of the abstract UTF-8 encoding, used to
evaluate the parametrised definitions on concrete inputs. -/
def encW : List Char → List Nat := fun l => l.map Char.toNat

/-- Concrete instantiation of the abstract digest function, used to
evaluate the parametrised definitions on concrete inputs. -/
def shaW : List Nat → List Nat := fun l => l

/-- C8 counterexample: the claim quantifies over every salt, but a salt
containing the `'$'` separator breaks the round trip: the stored value
then splits into three parts, the `salt, _ = stored.split('$')`
unpacking raises, and `verify_password` returns `False` even for the
correct password. -/
theorem verify_hash_dollar_salt_cex :
    verify_password encW shaW "pw" (hash_password encW shaW "pw" "a$b").1 = false := by
  simp only [verify_password, hash_password, encW,
    pbkdfRounds_triv shaW (fun _ => rfl)]
  decide

/-- C8 (amended): for every password `P` and every salt `S` that does not
contain the `'$'` separator, `verify_password(P, hash_password(P, S))`
returns true; and `verify_password` returns false (it catches the
unpacking error) on any stored value lacking the two-part `salt$hash`
structure.  Both statements hold for an arbitrary digest function. -/
theorem verify_hash_roundtrip (encode : List Char → List Nat)
    (sha256 : List Nat → List Nat) (P S : String) (hS : '$' ∉ S.data) :
    verify_password encode sha256 P (hash_password encode sha256 P S).1 = true ∧
    ∀ stored : String, (splitDollar stored.data).length ≠ 2 →
      verify_password encode sha256 P stored = false := by
  constructor
  · have hH := dollar_not_mem_toHexChars
      (sha256 (pbkdfRounds sha256 10000 (encode (S.data ++ P.data ++ S.data))))
    show verify_password encode sha256 P
      (String.mk (S.data ++ '$' :: toHexChars
        (sha256 (pbkdfRounds sha256 10000 (encode (S.data ++ P.data ++ S.data)))))) = true
    unfold verify_password
    rw [show (String.mk (S.data ++ '$' :: toHexChars
        (sha256 (pbkdfRounds sha256 10000 (encode (S.data ++ P.data ++ S.data)))))).data
      = S.data ++ '$' :: toHexChars
        (sha256 (pbkdfRounds sha256 10000 (encode (S.data ++ P.data ++ S.data)))) from rfl]
    rw [splitDollar_append _ hS, splitDollar_of_not_mem hH]
    show compare_digest (hash_password encode sha256 P (String.mk S.data)).1
      (String.mk (S.data ++ '$' :: toHexChars
        (sha256 (pbkdfRounds sha256 10000 (encode (S.data ++ P.data ++ S.data)))))) = true
    have hmk : String.mk S.data = S := rfl
    rw [hmk]
    show compare_digest
      (String.mk (S.data ++ '$' :: toHexChars
        (sha256 (pbkdfRounds sha256 10000 (encode (S.data ++ P.data ++ S.data))))))
      (String.mk (S.data ++ '$' :: toHexChars
        (sha256 (pbkdfRounds sha256 10000 (encode (S.data ++ P.data ++ S.data)))))) = true
    simp [compare_digest]
  · intro stored hlen
    unfold verify_password
    rcases hsp : splitDollar stored.data with _ | ⟨a, _ | ⟨b, _ | ⟨c, t⟩⟩⟩
    · rfl
    · rfl
    · exact absurd (by rw [hsp]; rfl) hlen
    · rfl

/-- C8 witness: the round trip and the malformed-value behaviour at
concrete inputs (`P = "pw"`, `S = "salt"`, malformed stored value
`"nodollar"`). -/
theorem verify_hash_roundtrip_witness :
    ('$' ∉ "salt".data ∧
      verify_password encW shaW "pw" (hash_password encW shaW "pw" "salt").1 = true) ∧
    ((splitDollar "nodollar".data).length ≠ 2 ∧
      verify_password encW shaW "pw" "nodollar" = false) := by
  refine ⟨⟨by decide, (verify_hash_roundtrip encW shaW "pw" "salt" (by decide)).1⟩,
    by decide, (verify_hash_roundtrip encW shaW "pw" "salt" (by decide)).2 "nodollar" (by decide)⟩

-- ═══════════════════════════════════════════════════════════════════
-- C10: get_audit_log
-- ═══════════════════════════════════════════════════════════════════

theorem mem_insertDesc {x e : AuditLogEntry} {l : List AuditLogEntry} :
    x ∈ insertDesc e l ↔ x = e ∨ x ∈ l := by
  induction l with
  | nil => simp [insertDesc]
  | cons y ys ih =>
    rw [insertDesc]
    split
    · simp only [List.mem_cons, ih]
      tauto
    · simp only [List.mem_cons]

theorem pairwise_insertDesc {e : AuditLogEntry} {l : List AuditLogEntry}
    (h : l.Pairwise (fun a b => b.timestamp ≤ a.timestamp)) :
    (insertDesc e l).Pairwise (fun a b => b.timestamp ≤ a.timestamp) := by
  induction l with
  | nil => simp [insertDesc]
  | cons y ys ih =>
    rw [insertDesc]
    rw [List.pairwise_cons] at h
    split
    · rw [List.pairwise_cons]
      refine ⟨?_, ih h.2⟩
      intro z hz
      rcases mem_insertDesc.mp hz with rfl | hz'
      · omega
      · exact h.1 z hz'
    · rw [List.pairwise_cons]
      refine ⟨?_, List.pairwise_cons.mpr h⟩
      intro z hz
      rcases List.mem_cons.mp hz with rfl | hz'
      · omega
      · have := h.1 z hz'
        omega

theorem mem_sortDesc {x : AuditLogEntry} {l : List AuditLogEntry} :
    x ∈ sortDesc l ↔ x ∈ l := by
  induction l with
  | nil => simp [sortDesc]
  | cons y ys ih =>
    rw [sortDesc, mem_insertDesc, ih, List.mem_cons]

theorem pairwise_sortDesc (l : List AuditLogEntry) :
    (sortDesc l).Pairwise (fun a b => b.timestamp ≤ a.timestamp) := by
  induction l with
  | nil => simp [sortDesc]
  | cons y ys ih => exact pairwise_insertDesc ih

theorem mem_applyFilter {e : AuditLogEntry} {f : Option String}
    {key : AuditLogEntry → String} {l : List AuditLogEntry}
    (h : e ∈ applyFilter f key l) :
    e ∈ l ∧ ∀ v, f = some v → v ≠ "" → key e = v := by
  match f with
  | none => exact ⟨h, fun v hv => absurd hv (by simp)⟩
  | some v =>
    rw [applyFilter] at h
    split at h
    · exact ⟨h, fun w hw hne => absurd (by injection hw with h'; rw [← h']; assumption) hne⟩
    · rw [List.mem_filter] at h
      exact ⟨h.1, fun w hw _ => by injection hw with h'; subst h'; exact eq_of_beq h.2⟩

/-- C10: `get_audit_log` returns at most `limit` entries, sorted by
timestamp in descending order; each returned entry comes from the
underlying log and matches every supplied (non-empty, per Python
truthiness) filter.  The function itself is pure: it works on a copy and
returns a value without touching the state. -/
theorem get_audit_log_spec (s : AuthState) (uidf actf rtf : Option String)
    (limit : Nat) :
    (get_audit_log s uidf actf rtf limit).length ≤ limit ∧
    (get_audit_log s uidf actf rtf limit).Pairwise
      (fun a b => b.timestamp ≤ a.timestamp) ∧
    ∀ e ∈ get_audit_log s uidf actf rtf limit,
      e ∈ s.audit_log ∧
      (∀ v, uidf = some v → v ≠ "" → e.user_id = v) ∧
      (∀ v, actf = some v → v ≠ "" → e.action = v) ∧
      (∀ v, rtf = some v → v ≠ "" → e.resource_type = v) := by
  refine ⟨?_, ?_, ?_⟩
  · exact List.length_take_le _ _
  · exact (pairwise_sortDesc _).sublist (List.take_sublist _ _)
  · intro e he
    have h3 := mem_sortDesc.mp (List.take_subset _ _ he)
    have h2 := mem_applyFilter h3
    have h1 := mem_applyFilter h2.1
    have h0 := mem_applyFilter h1.1
    exact ⟨h0.1, h0.2, h1.2, h2.2⟩

/-- Concrete two-entry audit log used by the C10 witness. -/
def auditStateW : AuthState :=
  { users := [], sessions := [],
    audit_log :=
      [{ log_id := "L1", timestamp := 1, user_id := "U1",
         username := "a", action := "LOGIN", resource_type := "session",
         resource_id := "", details := [], ip_address := "",
         status := "success" },
       { log_id := "L2", timestamp := 2, user_id := "U1",
         username := "a", action := "LOGOUT", resource_type := "session",
         resource_id := "", details := [], ip_address := "",
         status := "success" }],
    current_session := none }

/-- C10 witness: the specification evaluated on a concrete two-entry log
with a user filter and limit 1. -/
theorem get_audit_log_spec_witness :
    (get_audit_log auditStateW (some "U1") none none 1).length ≤ 1 ∧
    (get_audit_log auditStateW (some "U1") none none 1).Pairwise
      (fun a b => b.timestamp ≤ a.timestamp) ∧
    ∀ e ∈ get_audit_log auditStateW (some "U1") none none 1,
      e ∈ auditStateW.audit_log ∧
      (∀ v, (some "U1" : Option String) = some v → v ≠ "" → e.user_id = v) ∧
      (∀ v, (none : Option String) = some v → v ≠ "" → e.action = v) ∧
      (∀ v, (none : Option String) = some v → v ≠ "" → e.resource_type = v) :=
  get_audit_log_spec auditStateW (some "U1") none none 1

-- ═══════════════════════════════════════════════════════════════════
-- Login lockout machinery (C1, C2, C7)
-- ═══════════════════════════════════════════════════════════════════

/-- The user `u` is the one the username `uname` resolves to in state
`s`, and `u.user_id` identifies it uniquely in the directory (the
invariant of the Python dict keyed by `user_id`). -/
def keyedUser (s : AuthState) (uname : String) (u : User) : Prop :=
  getUserByUsername s uname = some u ∧
    ∀ x ∈ s.users, x.user_id = u.user_id → x = u

instance (s : AuthState) (uname : String) (u : User) :
    Decidable (keyedUser s uname u) :=
  inferInstanceAs (Decidable (getUserByUsername s uname = some u ∧
    ∀ x ∈ s.users, x.user_id = u.user_id → x = u))

theorem keyedUser_updateUserById {s : AuthState} {uname : String} {u : User}
    (hk : keyedUser s uname u) (u' : User)
    (hname : u'.username = u.username) (hid : u'.user_id = u.user_id) :
    keyedUser { s with users := updateUserById s.users u.user_id u' } uname u' := by
  obtain ⟨hfind, huniq⟩ := hk
  constructor
  · show (s.users.map
      (fun x => if x.user_id == u.user_id then u' else x)).find?
        (fun x => strLower x.username == strLower uname) = some u'
    rw [find?_map_of_pred _ _ _ ?hg]
    case hg =>
      intro x hx
      by_cases hxe : x.user_id == u.user_id
      · rw [if_pos hxe]
        have hxu : x = u := huniq x hx (eq_of_beq hxe)
        rw [hxu, hname]
      · rw [if_neg hxe]
    · show Option.map _ (getUserByUsername s uname) = some u'
      rw [hfind, Option.map_some', if_pos (beq_self_eq_true _)]
  · intro x hx hxid
    simp only [updateUserById, List.mem_map] at hx
    obtain ⟨y, hy, rfl⟩ := hx
    by_cases hye : y.user_id == u.user_id
    · rw [if_pos hye]
    · rw [if_neg hye] at hxid ⊢
      exact absurd (hxid.trans hid) (fun h => hye (beq_of_eq h))

theorem keyedUser_logAction {s : AuthState} {uname : String} {u : User}
    (hk : keyedUser s uname u) (lid : String) (now : Nat)
    (uid un act rt rid : String) (det : List (String × DetailVal))
    (ip st : String) :
    keyedUser (logAction s lid now uid un act rt rid det ip st) uname u := hk

/-- The entry just written by `_log_action` is the last entry of the
audit log, whether or not the 1000-entry cap truncated the front. -/
theorem logAction_getLast (s : AuthState) (lid : String) (now : Nat)
    (uid un act rt rid : String) (det : List (String × DetailVal))
    (ip st : String) :
    (logAction s lid now uid un act rt rid det ip st).audit_log.getLast? =
      some { log_id := lid, timestamp := now, user_id := uid,
             username := un, action := act, resource_type := rt,
             resource_id := rid, details := det, ip_address := ip,
             status := st } := by
  simp only [logAction]
  split
  · next hgt =>
    rw [List.length_append] at hgt
    rw [List.drop_append_of_le_length (by simp [List.length_append])]
    exact List.getLast?_concat _
  · exact List.getLast?_concat _

/-- One login attempt with a wrong password that does not reach the
lockout threshold: the caller gets `InvalidCredentials`, the user's
failed-attempt counter is incremented, and a `status="failure"` audit
entry with reason `invalid_password` is appended. -/
theorem login_wrong_step (encode : List Char → List Nat)
    (sha256 : List Nat → List Nat) {s : AuthState} {uname : String} {u : User}
    (pw ip ua : String) (now : Nat) (sid lid : String)
    (hk : keyedUser s uname u) (hact : u.is_active = true)
    (hlock : u.is_locked = false)
    (hpw : verify_password encode sha256 pw u.password_hash = false)
    (hlt : u.failed_login_attempts + 1 < MAX_FAILED_ATTEMPTS) :
    (login encode sha256 s uname pw ip ua now sid lid).1 =
      (false, "Invalid username or password") ∧
    keyedUser (login encode sha256 s uname pw ip ua now sid lid).2 uname
      { u with failed_login_attempts := u.failed_login_attempts + 1 } ∧
    (login encode sha256 s uname pw ip ua now sid lid).2.audit_log.getLast? =
      some { log_id := lid, timestamp := now, user_id := u.user_id,
             username := u.username, action := "LOGIN_ATTEMPT",
             resource_type := "session", resource_id := "",
             details := [("reason", .str "invalid_password"),
                         ("attempts", .num (u.failed_login_attempts + 1))],
             ip_address := "", status := "failure" } := by
  have hfind := hk.1
  have hge : ¬ (u.failed_login_attempts + 1 ≥ MAX_FAILED_ATTEMPTS) := by
    unfold MAX_FAILED_ATTEMPTS at hlt ⊢; omega
  refine ⟨?_, ?_, ?_⟩
  · simp only [login, hfind, hact, hlock, hpw, if_neg hge]
    simp
  · have hk' := keyedUser_logAction
      (keyedUser_updateUserById hk
        { u with failed_login_attempts := u.failed_login_attempts + 1 } rfl rfl)
      lid now u.user_id u.username "LOGIN_ATTEMPT" "session" ""
      [("reason", .str "invalid_password"),
       ("attempts", .num (u.failed_login_attempts + 1))] "" "failure"
    simp only [login, hfind, hact, hlock, hpw, if_neg hge]
    simpa [hact, hlock] using hk'
  · simp only [login, hfind, hact, hlock, hpw, if_neg hge]
    simpa using logAction_getLast
      { s with users := (updateUserById s.users u.user_id
          { u with failed_login_attempts := u.failed_login_attempts + 1 }) }
      lid now u.user_id u.username "LOGIN_ATTEMPT" "session" ""
      [("reason", .str "invalid_password"),
       ("attempts", .num (u.failed_login_attempts + 1))] "" "failure"

/-- The login attempt with a wrong password that reaches the lockout
threshold: the account is locked, an `ACCOUNT_LOCKED` failure entry is
written, and the caller is told the account is now locked. -/
theorem login_lock_step (encode : List Char → List Nat)
    (sha256 : List Nat → List Nat) {s : AuthState} {uname : String} {u : User}
    (pw ip ua : String) (now : Nat) (sid lid : String)
    (hk : keyedUser s uname u) (hact : u.is_active = true)
    (hlock : u.is_locked = false)
    (hpw : verify_password encode sha256 pw u.password_hash = false)
    (hge : u.failed_login_attempts + 1 ≥ MAX_FAILED_ATTEMPTS) :
    (login encode sha256 s uname pw ip ua now sid lid).1 =
      (false, "Account locked due to too many failed attempts") ∧
    keyedUser (login encode sha256 s uname pw ip ua now sid lid).2 uname
      { u with failed_login_attempts := u.failed_login_attempts + 1,
               is_locked := true } ∧
    (login encode sha256 s uname pw ip ua now sid lid).2.audit_log.getLast? =
      some { log_id := lid, timestamp := now, user_id := u.user_id,
             username := u.username, action := "ACCOUNT_LOCKED",
             resource_type := "user", resource_id := u.user_id,
             details := [("attempts", .num (u.failed_login_attempts + 1))],
             ip_address := "", status := "failure" } := by
  have hfind := hk.1
  refine ⟨?_, ?_, ?_⟩
  · simp only [login, hfind, hact, hlock, hpw, if_pos hge]
    simp
  · have hk' := keyedUser_logAction
      (keyedUser_updateUserById hk
        { u with failed_login_attempts := u.failed_login_attempts + 1,
                 is_locked := true } rfl rfl)
      lid now u.user_id u.username "ACCOUNT_LOCKED" "user" u.user_id
      [("attempts", .num (u.failed_login_attempts + 1))] "" "failure"
    simp only [login, hfind, hact, hlock, hpw, if_pos hge]
    simpa [hact] using hk'
  · simp only [login, hfind, hact, hlock, hpw, if_pos hge]
    simpa [hact] using logAction_getLast
      { s with users := (updateUserById s.users u.user_id
          { u with failed_login_attempts := u.failed_login_attempts + 1,
                   is_locked := true }) }
      lid now u.user_id u.username "ACCOUNT_LOCKED" "user" u.user_id
      [("attempts", .num (u.failed_login_attempts + 1))] "" "failure"

/-- A login attempt against a locked account fails with the
account-locked message before the password is even checked, and the
state is left untouched (in particular, no audit entry is written). -/
theorem login_locked_account (encode : List Char → List Nat)
    (sha256 : List Nat → List Nat) {s : AuthState} {uname : String} {u : User}
    (pw ip ua : String) (now : Nat) (sid lid : String)
    (hfind : getUserByUsername s uname = some u) (hact : u.is_active = true)
    (hlock : u.is_locked = true) :
    login encode sha256 s uname pw ip ua now sid lid =
      ((false, "Account is locked due to too many failed attempts. Contact administrator."), s) := by
  simp only [login, hfind, hact, hlock]
  simp

/-- `login` applied `n` times in a row with the same username and
password; attempt `k` uses `ts k`, `sid k`, `lid k` as its timestamp and
generated tokens. -/
def loginIter (encode : List Char → List Nat) (sha256 : List Nat → List Nat)
    (s : AuthState) (uname pw ip ua : String)
    (ts : Nat → Nat) (sid lid : Nat → String) : Nat → AuthState
  | 0 => s
  | n + 1 =>
      (login encode sha256 (loginIter encode sha256 s uname pw ip ua ts sid lid n)
        uname pw ip ua (ts (n + 1)) (sid (n + 1)) (lid (n + 1))).2

theorem loginIter_keyed (encode : List Char → List Nat)
    (sha256 : List Nat → List Nat) {s : AuthState} {uname : String} {u : User}
    (pw ip ua : String) (ts : Nat → Nat) (sid lid : Nat → String)
    (hk : keyedUser s uname u) (hact : u.is_active = true)
    (hlock : u.is_locked = false) (hzero : u.failed_login_attempts = 0)
    (hpw : verify_password encode sha256 pw u.password_hash = false) :
    ∀ k, k ≤ 4 →
      keyedUser (loginIter encode sha256 s uname pw ip ua ts sid lid k) uname
        { u with failed_login_attempts := k } := by
  intro k
  induction k with
  | zero =>
    intro _
    have hu : { u with failed_login_attempts := 0 } = u := by
      cases u; simp_all
    rw [hu]
    exact hk
  | succ n ih =>
    intro hle
    have hkn := ih (by omega)
    have hstep := login_wrong_step encode sha256 pw ip ua (ts (n + 1))
      (sid (n + 1)) (lid (n + 1)) hkn hact hlock hpw
      (by show n + 1 < 5; omega)
    rw [loginIter]
    simpa using hstep.2.1

/-- C1: for every account in good standing (active, unlocked, zero
failed attempts, uniquely keyed in the user directory), five logins in a
row with the correct username and a wrong password lock the account on
the fifth attempt, and the sixth attempt — even with the correct
password — fails with the account-locked error, not the
invalid-credentials error. -/
theorem lockout_after_five_wrong_attempts (encode : List Char → List Nat)
    (sha256 : List Nat → List Nat) (s : AuthState) (uname pw pr ip ua : String)
    (u : User) (ts : Nat → Nat) (sid lid : Nat → String)
    (hk : keyedUser s uname u) (hact : u.is_active = true)
    (hlock : u.is_locked = false) (hzero : u.failed_login_attempts = 0)
    (hpw : verify_password encode sha256 pw u.password_hash = false)
    (hpr : verify_password encode sha256 pr u.password_hash = true) :
    (∀ k, k < 4 →
      (login encode sha256 (loginIter encode sha256 s uname pw ip ua ts sid lid k)
        uname pw ip ua (ts (k + 1)) (sid (k + 1)) (lid (k + 1))).1 =
        (false, "Invalid username or password")) ∧
    (login encode sha256 (loginIter encode sha256 s uname pw ip ua ts sid lid 4)
      uname pw ip ua (ts 5) (sid 5) (lid 5)).1 =
      (false, "Account locked due to too many failed attempts") ∧
    getUserByUsername (loginIter encode sha256 s uname pw ip ua ts sid lid 5) uname =
      some { u with failed_login_attempts := 5, is_locked := true } ∧
    (login encode sha256 (loginIter encode sha256 s uname pw ip ua ts sid lid 5)
      uname pr ip ua (ts 6) (sid 6) (lid 6)).1 =
      (false, "Account is locked due to too many failed attempts. Contact administrator.") ∧
    ("Account is locked due to too many failed attempts. Contact administrator." : String) ≠
      "Invalid username or password" := by
  have hiter := loginIter_keyed encode sha256 pw ip ua ts sid lid
    hk hact hlock hzero hpw
  have hk4 := hiter 4 (by omega)
  have hlockstep := login_lock_step encode sha256 pw ip ua (ts 5) (sid 5) (lid 5)
    hk4 hact hlock hpw (by show 4 + 1 ≥ 5; omega)
  have hk5 : keyedUser (loginIter encode sha256 s uname pw ip ua ts sid lid 5) uname
      { u with failed_login_attempts := 5, is_locked := true } := by
    rw [loginIter]
    simpa using hlockstep.2.1
  refine ⟨?_, ?_, hk5.1, ?_, by decide⟩
  · intro k hk4'
    have hkk := hiter k (by omega)
    have hstep := login_wrong_step encode sha256 pw ip ua (ts (k + 1))
      (sid (k + 1)) (lid (k + 1)) hkk hact hlock hpw
      (by show k + 1 < 5; omega)
    exact hstep.1
  · exact hlockstep.1
  · exact (login_locked_account encode sha256 pr ip ua (ts 6) (sid 6) (lid 6)
      hk5.1 hact rfl) ▸ rfl

/-- Concrete user for the login witnesses: `"Right"` is the correct
password (its stored hash under `encW`/`shaW` with salt `"s"` is the
literal below), `"Wrong"` is not. -/
def userW : User :=
  { user_id := "U1", username := "alice", email := "alice@x.com",
    password_hash := "s$73526967687473", role := "agent",
    first_name := "Alice", last_name := "L" }

/-- Concrete single-user state for the login witnesses. -/
def stateW : AuthState :=
  { users := [userW], sessions := [], audit_log := [],
    current_session := none }

/-- C1 witness: the lockout scenario evaluated on the concrete state
`stateW` with wrong password `"Wrong"` and correct password `"Right"`. -/
theorem lockout_after_five_wrong_attempts_witness :
    (∀ k, k < 4 →
      (login encW shaW (loginIter encW shaW stateW "alice" "Wrong" "" ""
          (fun _ => 0) (fun _ => "S") (fun _ => "L") k)
        "alice" "Wrong" "" "" 0 "S" "L").1 =
        (false, "Invalid username or password")) ∧
    (login encW shaW (loginIter encW shaW stateW "alice" "Wrong" "" ""
        (fun _ => 0) (fun _ => "S") (fun _ => "L") 4)
      "alice" "Wrong" "" "" 0 "S" "L").1 =
      (false, "Account locked due to too many failed attempts") ∧
    getUserByUsername (loginIter encW shaW stateW "alice" "Wrong" "" ""
        (fun _ => 0) (fun _ => "S") (fun _ => "L") 5) "alice" =
      some { userW with failed_login_attempts := 5, is_locked := true } ∧
    (login encW shaW (loginIter encW shaW stateW "alice" "Wrong" "" ""
        (fun _ => 0) (fun _ => "S") (fun _ => "L") 5)
      "alice" "Right" "" "" 0 "S" "L").1 =
      (false, "Account is locked due to too many failed attempts. Contact administrator.") ∧
    ("Account is locked due to too many failed attempts. Contact administrator." : String) ≠
      "Invalid username or password" :=
  lockout_after_five_wrong_attempts encW shaW stateW "alice" "Wrong" "Right"
    "" "" userW (fun _ => 0) (fun _ => "S") (fun _ => "L")
    (by decide) rfl rfl rfl
    (by show verify_password encW shaW "Wrong" "s$73526967687473" = false
        simp only [verify_password, hash_password, encW,
          pbkdfRounds_triv shaW (fun _ => rfl)]
        decide)
    (by show verify_password encW shaW "Right" "s$73526967687473" = true
        simp only [verify_password, hash_password, encW,
          pbkdfRounds_triv shaW (fun _ => rfl)]
        decide)

-- ═══════════════════════════════════════════════════════════════════
-- C7: username enumeration resistance
-- ═══════════════════════════════════════════════════════════════════

/-- C7: login with an unknown username and login with a known username
plus a wrong, non-locking password return the identical failure value to
the caller (`False` with the same `"Invalid username or password"`
message), while the two audit entries differ: reason `user_not_found` in
the first case, `invalid_password` in the second. -/
theorem login_enumeration_resistant (encode : List Char → List Nat)
    (sha256 : List Nat → List Nat) (s : AuthState) (n1 n2 pw1 pw2 ip ua : String)
    (u : User) (now1 now2 : Nat) (sid1 sid2 lid1 lid2 : String)
    (h1 : getUserByUsername s n1 = none)
    (hk : keyedUser s n2 u) (hact : u.is_active = true)
    (hlock : u.is_locked = false)
    (hpw2 : verify_password encode sha256 pw2 u.password_hash = false)
    (hlt : u.failed_login_attempts + 1 < MAX_FAILED_ATTEMPTS) :
    (login encode sha256 s n1 pw1 ip ua now1 sid1 lid1).1 =
      (false, "Invalid username or password") ∧
    (login encode sha256 s n2 pw2 ip ua now2 sid2 lid2).1 =
      (false, "Invalid username or password") ∧
    (login encode sha256 s n1 pw1 ip ua now1 sid1 lid1).1 =
      (login encode sha256 s n2 pw2 ip ua now2 sid2 lid2).1 ∧
    (login encode sha256 s n1 pw1 ip ua now1 sid1 lid1).2.audit_log.getLast? =
      some { log_id := lid1, timestamp := now1, user_id := "UNKNOWN",
             username := n1, action := "LOGIN_ATTEMPT",
             resource_type := "session", resource_id := "",
             details := [("reason", .str "user_not_found")],
             ip_address := "", status := "failure" } ∧
    (login encode sha256 s n2 pw2 ip ua now2 sid2 lid2).2.audit_log.getLast? =
      some { log_id := lid2, timestamp := now2, user_id := u.user_id,
             username := u.username, action := "LOGIN_ATTEMPT",
             resource_type := "session", resource_id := "",
             details := [("reason", .str "invalid_password"),
                         ("attempts", .num (u.failed_login_attempts + 1))],
             ip_address := "", status := "failure" } := by
  have hstep := login_wrong_step encode sha256 pw2 ip ua now2 sid2 lid2
    hk hact hlock hpw2 hlt
  refine ⟨?_, hstep.1, ?_, ?_, hstep.2.2⟩
  · simp only [login, h1]
  · rw [hstep.1]; simp only [login, h1]
  · simp only [login, h1]
    exact logAction_getLast s lid1 now1 "UNKNOWN" n1 "LOGIN_ATTEMPT"
      "session" "" [("reason", .str "user_not_found")] "" "failure"

/-- C7 witness: the two scenarios evaluated on the concrete state
`stateW` (unknown username `"nobody"`, known username `"alice"` with
wrong password `"Wrong"`). -/
theorem login_enumeration_resistant_witness :
    (login encW shaW stateW "nobody" "x" "" "" 1 "S1" "L1").1 =
      (false, "Invalid username or password") ∧
    (login encW shaW stateW "alice" "Wrong" "" "" 2 "S2" "L2").1 =
      (false, "Invalid username or password") ∧
    (login encW shaW stateW "nobody" "x" "" "" 1 "S1" "L1").1 =
      (login encW shaW stateW "alice" "Wrong" "" "" 2 "S2" "L2").1 ∧
    (login encW shaW stateW "nobody" "x" "" "" 1 "S1" "L1").2.audit_log.getLast? =
      some { log_id := "L1", timestamp := 1, user_id := "UNKNOWN",
             username := "nobody", action := "LOGIN_ATTEMPT",
             resource_type := "session", resource_id := "",
             details := [("reason", .str "user_not_found")],
             ip_address := "", status := "failure" } ∧
    (login encW shaW stateW "alice" "Wrong" "" "" 2 "S2" "L2").2.audit_log.getLast? =
      some { log_id := "L2", timestamp := 2, user_id := "U1",
             username := "alice", action := "LOGIN_ATTEMPT",
             resource_type := "session", resource_id := "",
             details := [("reason", .str "invalid_password"),
                         ("attempts", .num 1)],
             ip_address := "", status := "failure" } :=
  login_enumeration_resistant encW shaW stateW "nobody" "alice" "x" "Wrong"
    "" "" userW 1 2 "S1" "S2" "L1" "L2" (by decide) (by decide) rfl rfl
    (by show verify_password encW shaW "Wrong" "s$73526967687473" = false
        simp only [verify_password, hash_password, encW,
          pbkdfRounds_triv shaW (fun _ => rfl)]
        decide)
    (by decide)

/-- The audit entry written by a non-locking wrong-password login,
needing only the username-lookup fact. -/
theorem login_wrong_result (encode : List Char → List Nat)
    (sha256 : List Nat → List Nat) {s : AuthState} {uname : String} {u : User}
    (pw ip ua : String) (now : Nat) (sid lid : String)
    (hfind : getUserByUsername s uname = some u) (hact : u.is_active = true)
    (hlock : u.is_locked = false)
    (hpw : verify_password encode sha256 pw u.password_hash = false)
    (hlt : u.failed_login_attempts + 1 < MAX_FAILED_ATTEMPTS) :
    (login encode sha256 s uname pw ip ua now sid lid).2.audit_log.getLast? =
      some { log_id := lid, timestamp := now, user_id := u.user_id,
             username := u.username, action := "LOGIN_ATTEMPT",
             resource_type := "session", resource_id := "",
             details := [("reason", .str "invalid_password"),
                         ("attempts", .num (u.failed_login_attempts + 1))],
             ip_address := "", status := "failure" } := by
  have hge : ¬ (u.failed_login_attempts + 1 ≥ MAX_FAILED_ATTEMPTS) := by omega
  simp only [login, hfind, hact, hlock, hpw, if_neg hge]
  simpa [hact, hlock] using logAction_getLast
    { s with users := (updateUserById s.users u.user_id
        { u with failed_login_attempts := u.failed_login_attempts + 1 }) }
    lid now u.user_id u.username "LOGIN_ATTEMPT" "session" ""
    [("reason", .str "invalid_password"),
     ("attempts", .num (u.failed_login_attempts + 1))] "" "failure"

/-- The audit entry written by the lockout-triggering login, needing only
the username-lookup fact. -/
theorem login_lock_result (encode : List Char → List Nat)
    (sha256 : List Nat → List Nat) {s : AuthState} {uname : String} {u : User}
    (pw ip ua : String) (now : Nat) (sid lid : String)
    (hfind : getUserByUsername s uname = some u) (hact : u.is_active = true)
    (hlock : u.is_locked = false)
    (hpw : verify_password encode sha256 pw u.password_hash = false)
    (hge : u.failed_login_attempts + 1 ≥ MAX_FAILED_ATTEMPTS) :
    (login encode sha256 s uname pw ip ua now sid lid).2.audit_log.getLast? =
      some { log_id := lid, timestamp := now, user_id := u.user_id,
             username := u.username, action := "ACCOUNT_LOCKED",
             resource_type := "user", resource_id := u.user_id,
             details := [("attempts", .num (u.failed_login_attempts + 1))],
             ip_address := "", status := "failure" } := by
  simp only [login, hfind, hact, hlock, hpw, if_pos hge]
  simpa [hact] using logAction_getLast
    { s with users := (updateUserById s.users u.user_id
        { u with failed_login_attempts := u.failed_login_attempts + 1,
                 is_locked := true }) }
    lid now u.user_id u.username "ACCOUNT_LOCKED" "user" u.user_id
    [("attempts", .num (u.failed_login_attempts + 1))] "" "failure"

-- ═══════════════════════════════════════════════════════════════════
-- C2: audit coverage of failed logins
-- ═══════════════════════════════════════════════════════════════════

/-- Concrete state with a deactivated user, for C2. -/
def userInactW : User :=
  { userW with
    user_id := "U2", username := "bob", email := "bob@x.com",
    is_active := false }

def stateInactW : AuthState :=
  { users := [userInactW], sessions := [], audit_log := [],
    current_session := none }

/-- Concrete state with a locked user, for C2. -/
def userLockedW : User :=
  { userW with
    user_id := "U3", username := "carol", email := "carol@x.com",
    is_locked := true, failed_login_attempts := 5 }

def stateLockedW : AuthState :=
  { users := [userLockedW], sessions := [], audit_log := [],
    current_session := none }

/-- C2 counterexample: a login rejected because the account is
deactivated is a failed authentication attempt, yet the state — in
particular the audit log — is returned completely unchanged: no
`status="failure"` entry is appended. -/
theorem deactivated_login_not_audited_cex :
    login encW shaW stateInactW "bob" "x" "" "" 0 "S" "L" =
      ((false, "Account is deactivated. Contact administrator."), stateInactW) ∧
    stateInactW.audit_log = [] := by
  constructor
  · decide
  · rfl

/-- C2 (amended): a login that fails because the username is unknown or
because the password is wrong appends an audit entry with
`status="failure"`, but a login rejected because the account is
deactivated or locked returns the state unchanged — those two failure
paths write no audit entry at all. -/
theorem failed_login_audit_spec (encode : List Char → List Nat)
    (sha256 : List Nat → List Nat) (s : AuthState)
    (uname pw ip ua : String) (now : Nat) (sid lid : String) :
    (getUserByUsername s uname = none →
      (login encode sha256 s uname pw ip ua now sid lid).1 =
        (false, "Invalid username or password") ∧
      (login encode sha256 s uname pw ip ua now sid lid).2.audit_log.getLast? =
        some { log_id := lid, timestamp := now, user_id := "UNKNOWN",
               username := uname, action := "LOGIN_ATTEMPT",
               resource_type := "session", resource_id := "",
               details := [("reason", .str "user_not_found")],
               ip_address := "", status := "failure" }) ∧
    (∀ u, getUserByUsername s uname = some u → u.is_active = false →
      login encode sha256 s uname pw ip ua now sid lid =
        ((false, "Account is deactivated. Contact administrator."), s)) ∧
    (∀ u, getUserByUsername s uname = some u → u.is_active = true →
      u.is_locked = true →
      login encode sha256 s uname pw ip ua now sid lid =
        ((false, "Account is locked due to too many failed attempts. Contact administrator."), s)) ∧
    (∀ u, getUserByUsername s uname = some u → u.is_active = true →
      u.is_locked = false →
      verify_password encode sha256 pw u.password_hash = false →
      ∃ e, (login encode sha256 s uname pw ip ua now sid lid).2.audit_log.getLast? =
        some e ∧ e.status = "failure") := by
  refine ⟨?_, ?_, ?_, ?_⟩
  · intro h1
    constructor
    · simp only [login, h1]
    · simp only [login, h1]
      exact logAction_getLast s lid now "UNKNOWN" uname "LOGIN_ATTEMPT"
        "session" "" [("reason", .str "user_not_found")] "" "failure"
  · intro u hfind hinact
    simp only [login, hfind, hinact]
    simp
  · intro u hfind hact hlock
    exact login_locked_account encode sha256 pw ip ua now sid lid hfind hact hlock
  · intro u hfind hact hlock hpw
    by_cases hge : u.failed_login_attempts + 1 ≥ MAX_FAILED_ATTEMPTS
    · exact ⟨_, (login_lock_result encode sha256 pw ip ua now sid lid
        hfind hact hlock hpw hge), rfl⟩
    · exact ⟨_, (login_wrong_result encode sha256 pw ip ua now sid lid
        hfind hact hlock hpw (by omega)), rfl⟩

/-- C2 witness: the four failure paths of `login` evaluated on concrete
states (unknown user, deactivated user, locked user, wrong password). -/
theorem failed_login_audit_spec_witness :
    ((login encW shaW stateW "nobody" "pw" "" "" 3 "S" "L").1 =
        (false, "Invalid username or password") ∧
      (login encW shaW stateW "nobody" "pw" "" "" 3 "S" "L").2.audit_log.getLast? =
        some { log_id := "L", timestamp := 3, user_id := "UNKNOWN",
               username := "nobody", action := "LOGIN_ATTEMPT",
               resource_type := "session", resource_id := "",
               details := [("reason", .str "user_not_found")],
               ip_address := "", status := "failure" }) ∧
    (login encW shaW stateInactW "bob" "pw" "" "" 3 "S" "L" =
      ((false, "Account is deactivated. Contact administrator."), stateInactW)) ∧
    (login encW shaW stateLockedW "carol" "pw" "" "" 3 "S" "L" =
      ((false, "Account is locked due to too many failed attempts. Contact administrator."), stateLockedW)) ∧
    (∃ e, (login encW shaW stateW "alice" "Wrong" "" "" 3 "S" "L").2.audit_log.getLast? =
        some e ∧ e.status = "failure") := by
  refine ⟨(failed_login_audit_spec encW shaW stateW "nobody" "pw" "" "" 3 "S" "L").1
      (by decide),
    (failed_login_audit_spec encW shaW stateInactW "bob" "pw" "" "" 3 "S" "L").2.1
      userInactW (by decide) rfl,
    (failed_login_audit_spec encW shaW stateLockedW "carol" "pw" "" "" 3 "S" "L").2.2.1
      userLockedW (by decide) rfl rfl,
    (failed_login_audit_spec encW shaW stateW "alice" "Wrong" "" "" 3 "S" "L").2.2.2
      userW (by decide) rfl rfl ?_⟩
  show verify_password encW shaW "Wrong" "s$73526967687473" = false
  simp only [verify_password, hash_password, encW,
    pbkdfRounds_triv shaW (fun _ => rfl)]
  decide

-- ═══════════════════════════════════════════════════════════════════
-- C3: delete_user (deactivation)
-- ═══════════════════════════════════════════════════════════════════

/-- `get_current_session` never touches the user directory or the audit
log. -/
theorem get_current_session_users (s : AuthState) (now : Nat) :
    (get_current_session s now).2.users = s.users := by
  unfold get_current_session
  rcases s.current_session with _ | sid
  · rfl
  · rcases h : s.sessions.find? (fun x => x.session_id == sid) with _ | se
    · simp only [h]
    · by_cases ha : se.is_active = false
      · simp [h, ha]
      · by_cases he : se.expires_at < now
        · simp [h, ha, he]
        · simp [h, ha, he]

/-- `get_current_user` never touches the user directory. -/
theorem get_current_user_users (s : AuthState) (now : Nat) :
    (get_current_user s now).2.users = s.users := by
  unfold get_current_user
  rcases h : get_current_session s now with ⟨_ | se, s1⟩
  · have := get_current_session_users s now
    rw [h] at this
    exact this
  · have := get_current_session_users s now
    rw [h] at this
    exact this

/-- C3 counterexample: `delete_user` guards only against deleting the
*current session's* user, not against `deleted_by == user_id`.  With no
active session, the actor `"U1"` deactivates their own account `"U1"`
and the call succeeds instead of failing with a self-operation error. -/
theorem delete_user_self_actor_cex :
    (delete_user stateW "U1" "U1" 0 "L").1 =
      (true, "User deactivated successfully") ∧
    getUser (delete_user stateW "U1" "U1" 0 "L").2 "U1" =
      some { userW with is_active := false, updated_at := 0 } := by
  constructor
  · decide
  · decide

/-- C3 (amended): `delete_user(user_id, deleted_by)` fails with
`"Cannot delete your own account"` when the *current session's* user is
the target (the `deleted_by` argument is not consulted by the guard);
when the target exists and is not the current user, the call succeeds,
sets the target's `is_active` to false, and marks every session owned by
the target inactive. -/
theorem delete_user_spec (s : AuthState) (uid dby : String) (now : Nat)
    (lid : String) :
    (getUser s uid = none →
      delete_user s uid dby now lid = ((false, "User not found"), s)) ∧
    (∀ u c, getUser s uid = some u → (get_current_user s now).1 = some c →
      c.user_id = uid →
      (delete_user s uid dby now lid).1 =
        (false, "Cannot delete your own account")) ∧
    (∀ u, getUser s uid = some u →
      (∀ c, (get_current_user s now).1 = some c → c.user_id ≠ uid) →
      (delete_user s uid dby now lid).1 =
        (true, "User deactivated successfully") ∧
      getUser (delete_user s uid dby now lid).2 uid =
        some { u with is_active := false, updated_at := now } ∧
      ∀ se ∈ (delete_user s uid dby now lid).2.sessions,
        se.user_id = uid → se.is_active = false) := by
  refine ⟨?_, ?_, ?_⟩
  · intro h
    simp only [delete_user, h]
  · intro u c hfind hcur hc
    simp only [delete_user, hfind, hcur, hc, beq_self_eq_true, if_pos]
  · intro u hfind hnc
    have hguard : (match (get_current_user s now).1 with
        | some current => current.user_id == uid
        | none => false) = false := by
      rcases hcur : (get_current_user s now).1 with _ | c
      · rfl
      · simpa using hnc c hcur
    have hfind' : s.users.find? (fun x => x.user_id == uid) = some u := hfind
    have hp : (u.user_id == uid) = true := by
      have := List.find?_some hfind'
      simpa using this
    refine ⟨?_, ?_, ?_⟩
    · simp only [delete_user, hfind, hguard]
      simp
    · simp only [delete_user, hfind, hguard]
      show ((updateUserById (get_current_user s now).2.users uid
          { u with is_active := false, updated_at := now }).find?
        (fun x => x.user_id == uid)) = _
      rw [get_current_user_users]
      simp only [updateUserById]
      rw [find?_map_of_pred _ _ _ ?hg]
      case hg =>
        intro x _
        by_cases hxe : (x.user_id == uid) = true
        · rw [if_pos hxe, hxe]
          show ({ u with is_active := false, updated_at := now }.user_id == uid) = true
          exact hp
        · rw [if_neg hxe]
      show Option.map _ (getUser s uid) = _
      rw [hfind, Option.map_some', if_pos hp]
    · simp only [delete_user, logAction, hfind, hguard, Bool.false_eq_true,
        if_false]
      intro se hse
      simp only [List.mem_map] at hse
      obtain ⟨y, _, rfl⟩ := hse
      by_cases hye : (y.user_id == uid) = true
      · rw [if_pos hye]
        intro _
        rfl
      · rw [if_neg hye]
        intro hyid
        exact absurd (beq_of_eq hyid) hye

/-- Concrete active session owned by `userW`, for the session-dependent
witnesses. -/
def sessW : Session :=
  { session_id := "SID", user_id := "U1", username := "alice",
    role := "agent", created_at := 0, expires_at := 100,
    ip_address := "", user_agent := "", is_active := true,
    last_activity := 0 }

/-- Concrete state in which `userW` is logged in. -/
def stateSessW : AuthState :=
  { users := [userW], sessions := [sessW], audit_log := [],
    current_session := some "SID" }

/-- Second user `dave`, target of the successful-deactivation witness. -/
def userBW : User :=
  { userW with
    user_id := "U4", username := "dave", email := "dave@x.com" }

/-- `dave`'s session. -/
def sessBW : Session :=
  { sessW with session_id := "SID2", user_id := "U4", username := "dave" }

/-- Two users, two sessions; `alice` is the current session's user. -/
def stateTwoW : AuthState :=
  { users := [userW, userBW], sessions := [sessW, sessBW],
    audit_log := [], current_session := some "SID" }

/-- C3 witness: unknown target, self-deletion through the current
session, and a successful deactivation that marks the target's session
inactive, all on concrete states. -/
theorem delete_user_spec_witness :
    (delete_user stateW "nope" "U1" 0 "L" = ((false, "User not found"), stateW)) ∧
    ((delete_user stateSessW "U1" "U1" 0 "L").1 =
      (false, "Cannot delete your own account")) ∧
    ((delete_user stateTwoW "U4" "U1" 0 "L").1 =
      (true, "User deactivated successfully") ∧
     getUser (delete_user stateTwoW "U4" "U1" 0 "L").2 "U4" =
       some { userBW with is_active := false, updated_at := 0 } ∧
     ∀ se ∈ (delete_user stateTwoW "U4" "U1" 0 "L").2.sessions,
       se.user_id = "U4" → se.is_active = false) := by
  have hcur : (get_current_user stateTwoW 0).1 = some userW := by decide
  refine ⟨(delete_user_spec stateW "nope" "U1" 0 "L").1 (by decide),
    (delete_user_spec stateSessW "U1" "U1" 0 "L").2.1 userW userW
      ?muser ?mcur ?mid,
    (delete_user_spec stateTwoW "U4" "U1" 0 "L").2.2 userBW (by decide) ?hnc⟩
  case muser => decide
  case mcur => decide
  case mid => decide
  case hnc =>
    intro c hc
    rw [hcur] at hc
    injection hc with h
    rw [← h]
    decide

-- ═══════════════════════════════════════════════════════════════════
-- C4: permission checks on missing/inactive users
-- ═══════════════════════════════════════════════════════════════════

/-- Inactive user with the agent role, for the C4 counterexample. -/
def inactiveAgentW : User :=
  { userW with
    user_id := "U5", username := "eve", email := "eve@x.com",
    is_active := false }

/-- C4 counterexample: `has_any_permission` does not check `is_active`:
for an explicitly passed inactive agent it returns `True` (the agent
role grants `view_transactions`), where the claim requires `False`.
`has_all_permissions` behaves the same way. -/
theorem has_any_permission_inactive_cex :
    inactiveAgentW.is_active = false ∧
    (has_any_permission stateW 0 ["view_transactions"] (some inactiveAgentW)).1 = true ∧
    (has_all_permissions stateW 0 ["view_transactions"] (some inactiveAgentW)).1 = true := by
  refine ⟨rfl, ?_, ?_⟩ <;> decide

/-- C4 (amended): all three checks return false (and never raise — they
are total functions) when no user is passed and no current session user
resolves; `has_permission` additionally returns false for an inactive
user; but `has_any_permission` and `has_all_permissions` perform no
`is_active` check — for a resolved user, active or not, they return the
plain permission-set test.  Passing no user is equivalent to passing the
session-resolved user. -/
theorem permission_checks_spec (s : AuthState) (now : Nat) (perm : String)
    (perms : List String) :
    ((get_current_user s now).1 = none →
      (has_permission s now perm none).1 = false ∧
      (has_any_permission s now perms none).1 = false ∧
      (has_all_permissions s now perms none).1 = false) ∧
    (∀ u, (has_permission s now perm (some u)).1 =
      (u.is_active && (get_user_permissions u).contains perm)) ∧
    (∀ u, (has_any_permission s now perms (some u)).1 =
      perms.any (fun p => (get_user_permissions u).contains p)) ∧
    (∀ u, (has_all_permissions s now perms (some u)).1 =
      perms.all (fun p => (get_user_permissions u).contains p)) ∧
    (∀ u, (get_current_user s now).1 = some u →
      (has_permission s now perm none).1 =
        (has_permission s now perm (some u)).1 ∧
      (has_any_permission s now perms none).1 =
        (has_any_permission s now perms (some u)).1 ∧
      (has_all_permissions s now perms none).1 =
        (has_all_permissions s now perms (some u)).1) := by
  refine ⟨?_, ?_, ?_, ?_, ?_⟩
  · intro h
    refine ⟨?_, ?_, ?_⟩ <;> simp [has_permission, has_any_permission,
      has_all_permissions, h]
  · intro u
    cases hu : u.is_active <;> simp [has_permission, hu]
  · intro u
    simp [has_any_permission]
  · intro u
    simp [has_all_permissions]
  · intro u h
    refine ⟨?_, ?_, ?_⟩
    · cases hu : u.is_active <;> simp [has_permission, h, hu]
    · simp [has_any_permission, h]
    · simp [has_all_permissions, h]

/-- C4 witness: the specification evaluated on a concrete state with no
session (resolution yields no user) and on the inactive agent. -/
theorem permission_checks_spec_witness :
    ((get_current_user stateW 0).1 = none ∧
      (has_permission stateW 0 "view_transactions" none).1 = false ∧
      (has_any_permission stateW 0 ["view_transactions"] none).1 = false ∧
      (has_all_permissions stateW 0 ["view_transactions"] none).1 = false) ∧
    (has_permission stateW 0 "view_transactions" (some inactiveAgentW)).1 =
      (inactiveAgentW.is_active &&
        (get_user_permissions inactiveAgentW).contains "view_transactions") ∧
    (has_any_permission stateW 0 ["view_transactions"] (some inactiveAgentW)).1 =
      ["view_transactions"].any
        (fun p => (get_user_permissions inactiveAgentW).contains p) ∧
    (has_all_permissions stateW 0 ["view_transactions"] (some inactiveAgentW)).1 =
      ["view_transactions"].all
        (fun p => (get_user_permissions inactiveAgentW).contains p) := by
  have h := permission_checks_spec stateW 0 "view_transactions" ["view_transactions"]
  exact ⟨⟨by decide, h.1 (by decide)⟩, h.2.1 inactiveAgentW,
    h.2.2.1 inactiveAgentW, h.2.2.2.1 inactiveAgentW⟩

-- ═══════════════════════════════════════════════════════════════════
-- C5: lazy session expiry
-- ═══════════════════════════════════════════════════════════════════

/-- C5 counterexample: at `now` exactly equal to the session's expiry the
source's strict comparison `expires_at < now` does not fire, so the
lookup still returns the session (with its activity refreshed) — the
claim's `now ≥ expiry` boundary is wrong. -/
theorem session_expiry_boundary_cex :
    (get_current_session stateSessW 100).1 =
      some { sessW with last_activity := 100 } ∧
    (is_authenticated stateSessW 100).1 = true := by
  constructor
  · decide
  · decide

/-- C5 (amended): whenever the current session is looked up at a time
`now` strictly after its expiry (`expires_at < now`), the lookup returns
none, marks the stored session object inactive and clears the
current-session reference, so `get_current_user` resolves no user and
`is_authenticated` is false — an expired session behaves as logged out
without an explicit logout call. -/
theorem session_expiry_spec (s : AuthState) (now : Nat) (sid : String)
    (se : Session)
    (hcur : s.current_session = some sid)
    (hfind : s.sessions.find? (fun x => x.session_id == sid) = some se)
    (hact : se.is_active = true)
    (hexp : se.expires_at < now) :
    get_current_session s now =
      (none, { s with
        sessions := updateSessionById s.sessions sid { se with is_active := false },
        current_session := none }) ∧
    (get_current_user s now).1 = none ∧
    (is_authenticated s now).1 = false ∧
    ∀ x ∈ (get_current_session s now).2.sessions,
      x.session_id = sid → x.is_active = false := by
  have hmain : get_current_session s now =
      (none, { s with
        sessions := updateSessionById s.sessions sid { se with is_active := false },
        current_session := none }) := by
    unfold get_current_session
    simp only [hcur, hfind]
    simp [hact, hexp]
  refine ⟨hmain, ?_, ?_, ?_⟩
  · unfold get_current_user
    rw [hmain]
  · unfold is_authenticated
    rw [hmain]
    rfl
  · rw [hmain]
    intro x hx
    simp only [updateSessionById, List.mem_map] at hx
    obtain ⟨y, _, rfl⟩ := hx
    by_cases hye : (y.session_id == sid) = true
    · rw [if_pos hye]
      intro _
      rfl
    · rw [if_neg hye]
      intro hyid
      exact absurd (beq_of_eq hyid) hye

/-- C5 witness: a session expiring at 100 looked up at 101 on a concrete
state. -/
theorem session_expiry_spec_witness :
    get_current_session stateSessW 101 =
      (none, { stateSessW with
        sessions := updateSessionById stateSessW.sessions "SID"
          { sessW with is_active := false },
        current_session := none }) ∧
    (get_current_user stateSessW 101).1 = none ∧
    (is_authenticated stateSessW 101).1 = false ∧
    ∀ x ∈ (get_current_session stateSessW 101).2.sessions,
      x.session_id = "SID" → x.is_active = false :=
  session_expiry_spec stateSessW 101 "SID" sessW (by decide) (by decide)
    (by decide) (by decide)

end AeroRBAC
